import Mathlib

/-!
Verification of the uss_qualifier test-scenario lifecycle engine

Shallow embedding of `monitoring/uss_qualifier/scenarios/scenario.py`:
the scenario phase state machine, report-tree assembly, pending-check
severity escalation, the dependency binding of the scenario factory, and
scenario discovery.

Modelling conventions:
* Timestamps (`datetime.utcnow()` / `arrow.utcnow()`) are modelled as an
  opaque clock value `now : Nat` passed to every operation that stamps a
  time.
* Python exceptions are modelled with the `PyError` type; a method that can
  raise returns `TestScenarioState × Except PyError α`, pairing the state
  at the moment of the raise (in the source, every raise in these methods
  happens before any state mutation of that method, so the paired state on
  the error path is the input state).
* The two severity-escalation exception classes are modelled as the
  distinct constructors of `CheckOutcome`.
* Python dict-comprehension lookups (`{c.name: c for c in ...}[name]`,
  where the last entry with a given key wins) are modelled by searching the
  reversed list.
-/

/-- Modelled from the spec: `Severity` (defined in
`monitoring/uss_qualifier/common_data_definitions.py`, which is not under
`src/`): `Low | High | Critical`, in order of control-flow impact. -/
inductive Severity where
  | Low
  | High
  | Critical
deriving DecidableEq

/-- String rendering of a severity, as used in exception messages. -/
def severityStr : Severity → String
  | Severity.Low => "Low"
  | Severity.High => "High"
  | Severity.Critical => "Critical"

/-- Participant identifiers are opaque strings. -/
abbrev ParticipantID := String

/-- Modelled from the spec: opaque query record (method, URL, status, ...)
passed verbatim into `record_query`; its internal structure is irrelevant
to this core, so it is modelled as an opaque string. -/
abbrev Query := String

/-- Modelled from the spec: `TestCheckDocumentation` (defined in
`scenarios/documentation/definitions.py`, not under `src/`): a check name,
its documentation URL and its applicable requirements. -/
structure TestCheckDocumentation where
  name : String
  url : String
  applicable_requirements : List String
deriving DecidableEq

/-- Modelled from the spec: `TestStepDocumentation` (not under `src/`):
a step name, URL and its declared checks. -/
structure TestStepDocumentation where
  name : String
  url : String
  checks : List TestCheckDocumentation
deriving DecidableEq

/-- Modelled from the spec: `TestCaseDocumentation` (not under `src/`):
a case name, URL and its declared steps. -/
structure TestCaseDocumentation where
  name : String
  url : String
  steps : List TestStepDocumentation
deriving DecidableEq

/-- Modelled from the spec: `TestScenarioDocumentation` (not under `src/`):
the declared cases of a scenario type plus an optional cleanup step. -/
structure TestScenarioDocumentation where
  name : String
  url : String
  cases : List TestCaseDocumentation
  cleanup : Option TestStepDocumentation
deriving DecidableEq

/-- Modelled from the spec: `PassedCheck` (defined in
`uss_qualifier/reports/report.py`, not under `src/`): check name,
participants and applicable requirements. -/
structure PassedCheck where
  name : String
  participants : List ParticipantID
  requirements : List String
deriving DecidableEq

/-- Modelled from the spec: `FailedCheck` (not under `src/`): check name,
timestamp, summary, details, severity, participants, applicable
requirements, optional extra structured data and optional query
timestamps. -/
structure FailedCheck where
  name : String
  documentation_url : String
  timestamp : Nat
  summary : String
  details : String
  requirements : List String
  severity : Severity
  participants : List ParticipantID
  additional_data : Option String
  query_report_timestamps : Option (List Nat)
deriving DecidableEq

/-- Modelled from the spec: a timestamped note entry (`Note` in
`reports/report.py`, not under `src/`). -/
structure Note where
  message : String
  timestamp : Nat
deriving DecidableEq

/-- Modelled from the spec: `TestStepReport` (not under `src/`): name,
timestamps, append-only lists of passed and failed checks and an optional
list of opaque query records (the `queries` field is present only once the
first query is recorded). -/
structure TestStepReport where
  name : String
  documentation_url : String
  start_time : Nat
  end_time : Option Nat
  failed_checks : List FailedCheck
  passed_checks : List PassedCheck
  queries : Option (List Query)
deriving DecidableEq

/-- Modelled from the spec: `TestCaseReport` (not under `src/`): name,
timestamps and the ordered list of step reports. -/
structure TestCaseReport where
  name : String
  documentation_url : String
  start_time : Nat
  end_time : Option Nat
  steps : List TestStepReport
deriving DecidableEq

/-- An execution-error record (`ErrorReport.create_from_exception`);
modelled as the exception message. -/
abbrev ErrorReport := String

/-- Modelled from the spec: `TestScenarioReport` (not under `src/`):
name, scenario type, timestamps, ordered case list, optional notes map
(modelled as an association list preserving dict insertion order),
optional cleanup step report, optional execution error, and the lazily
computed `successful` flag (absent until first computed). -/
structure TestScenarioReport where
  name : String
  scenario_type : String
  documentation_url : String
  start_time : Nat
  end_time : Option Nat
  cases : List TestCaseReport
  notes : Option (List (String × Note))
  cleanup : Option TestStepReport
  execution_error : Option ErrorReport
  successful : Option Bool
deriving DecidableEq

/-- The Python exception classes raised by this module. -/
inductive PyError where
  | runtimeError (msg : String)
  | valueError (msg : String)
  | typeError (msg : String)
  | attributeError (msg : String)
deriving DecidableEq

/-- Control-flow outcome of `PendingCheck.record_failed`: normal return,
`ScenarioCannotContinueError` (scenario abort) or
`TestRunCannotContinueError` (run abort) — two distinct exception types in
the source. -/
inductive CheckOutcome where
  | ok
  | scenarioCannotContinue (msg : String)
  | testRunCannotContinue (msg : String)
deriving DecidableEq

/-- State of a `PendingCheck` handle.  The `_step_report` field is the view
the handle holds of the step report it is bound to; `_on_failed_check` records whether a
failure-observer callback is attached. -/
structure PendingCheck where
  _documentation : TestCheckDocumentation
  _participants : List ParticipantID
  _step_report : TestStepReport
  _on_failed_check : Bool
  _outcome_recorded : Bool
deriving DecidableEq

/-- Source `PendingCheck.record_passed`: marks the outcome recorded and appends a
`PassedCheck` built from the defaults (participants and requirements
default to the declared values of the handle and of the check
documentation). -/
def PendingCheck.record_passed (pc : PendingCheck)
    (participants : Option (List ParticipantID))
    (requirements : Option (List String)) : PendingCheck :=
  let ps := participants.getD pc._participants
  let reqs := requirements.getD pc._documentation.applicable_requirements
  let passed : PassedCheck :=
    { name := pc._documentation.name, participants := ps, requirements := reqs }
  { pc with
      _outcome_recorded := true,
      _step_report :=
        { pc._step_report with
            passed_checks := pc._step_report.passed_checks ++ [passed] } }

/-- Result of `PendingCheck.record_failed`: the updated handle (with its
updated step report), the list of arguments passed to the failure-observer
callback (in call order), and the control-flow outcome. -/
structure FailResult where
  pc : PendingCheck
  notified : List FailedCheck
  outcome : CheckOutcome
deriving DecidableEq

/-- Source `PendingCheck.record_failed`: marks the outcome recorded, builds a
`FailedCheck` (defaults as in the source), appends it to the step report,
invokes the failure observer if attached, then raises by severity:
High raises `ScenarioCannotContinueError`, Critical raises
`TestRunCannotContinueError`, Low returns normally. -/
def PendingCheck.record_failed (pc : PendingCheck) (summary : String)
    (severity : Severity) (details : String)
    (participants : Option (List ParticipantID))
    (query_timestamps : Option (List Nat))
    (additional_data : Option String)
    (requirements : Option (List String)) (now : Nat) : FailResult :=
  let ps := participants.getD pc._participants
  let reqs := requirements.getD pc._documentation.applicable_requirements
  let failed_check : FailedCheck :=
    { name := pc._documentation.name,
      documentation_url := pc._documentation.url,
      timestamp := now,
      summary := summary,
      details := details,
      requirements := reqs,
      severity := severity,
      participants := ps,
      additional_data := additional_data,
      query_report_timestamps := query_timestamps }
  let pc1 : PendingCheck :=
    { pc with
        _outcome_recorded := true,
        _step_report :=
          { pc._step_report with
              failed_checks := pc._step_report.failed_checks ++ [failed_check] } }
  let notified := if pc._on_failed_check then [failed_check] else []
  let outcome :=
    if severity = Severity.High then
      CheckOutcome.scenarioCannotContinue
        (severityStr severity ++ "-severity issue: " ++ summary)
    else if severity = Severity.Critical then
      CheckOutcome.testRunCannotContinue
        (severityStr severity ++ "-severity issue: " ++ summary)
    else CheckOutcome.ok
  { pc := pc1, notified := notified, outcome := outcome }

/-- Dunder method `PendingCheck.__exit__`: runs when the scope of the
handle ends, on every
exit path (the `with` statement invokes it both on normal completion and
on exceptional exit, passing the exception info, which the source
ignores).  If no outcome was recorded, performs `record_passed()` with all
defaults. -/
def PendingCheck.exitScope (pc : PendingCheck) (exc : Option String) :
    PendingCheck :=
  let _ := exc
  if pc._outcome_recorded then pc else pc.record_passed none none

/-- Source `ScenarioPhase`: the eight lifecycle phases. -/
inductive ScenarioPhase where
  | Undefined
  | NotStarted
  | ReadyForTestCase
  | ReadyForTestStep
  | RunningTestStep
  | ReadyForCleanup
  | CleaningUp
  | Complete
deriving DecidableEq

/-- String value of a phase (the `str`-enum value). -/
def phaseStr : ScenarioPhase → String
  | ScenarioPhase.Undefined => "Undefined"
  | ScenarioPhase.NotStarted => "NotStarted"
  | ScenarioPhase.ReadyForTestCase => "ReadyForTestCase"
  | ScenarioPhase.ReadyForTestStep => "ReadyForTestStep"
  | ScenarioPhase.RunningTestStep => "RunningTestStep"
  | ScenarioPhase.ReadyForCleanup => "ReadyForCleanup"
  | ScenarioPhase.CleaningUp => "CleaningUp"
  | ScenarioPhase.Complete => "Complete"

/-- State of a `TestScenario` instance.

The in-progress case report (`self._case_report`) and step report
(`self._step_report`) of the source are, in every state reachable through
the public operations, aliases of positions inside the report tree: the
case report is the last element of `cases` (appended by `begin_test_case`)
and the step report is the last step of that case (appended by
`begin_test_step`) — or, during `CleaningUp`, the `cleanup`
field of the report.  The embedding therefore keeps the report tree as the single truth
and edits those positions in place; `_current_case` / `_current_step`
hold the documentation objects the source keeps alongside. -/
structure TestScenarioState where
  me : String
  scenario_type : String
  documentation : TestScenarioDocumentation
  on_failed_check : Bool
  _phase : ScenarioPhase
  _scenario_report : Option TestScenarioReport
  _current_case : Option TestCaseDocumentation
  _current_step : Option TestStepDocumentation
deriving DecidableEq

/-- The message of the `RuntimeError` raised by `TestScenario._expect_phase`. -/
def expectPhaseMsg (s : TestScenarioState) (caller : String)
    (expected : List ScenarioPhase) : String :=
  "Test scenario " ++ s.me ++ " was " ++ phaseStr s._phase ++ " when "
    ++ caller ++ " was called (expected "
    ++ String.intercalate ", " (expected.map phaseStr) ++ ")"

/-- Source `TestScenario._expect_phase`: `none` when the current phase is
acceptable, otherwise the `RuntimeError` to raise. -/
def expectPhase (s : TestScenarioState) (caller : String)
    (expected : List ScenarioPhase) : Option PyError :=
  if s._phase ∈ expected then none
  else some (PyError.runtimeError (expectPhaseMsg s caller expected))

/-- Last-entry-wins lookup in a list of case documentations, modelling the
dict comprehension `{c.name: c for c in self.documentation.cases}`. -/
def lookupCaseDoc (cases : List TestCaseDocumentation) (name : String) :
    Option TestCaseDocumentation :=
  cases.reverse.find? (fun c => c.name == name)

/-- Last-entry-wins lookup in a list of step documentations. -/
def lookupStepDoc (steps : List TestStepDocumentation) (name : String) :
    Option TestStepDocumentation :=
  steps.reverse.find? (fun c => c.name == name)

/-- Last-entry-wins lookup in a list of check documentations. -/
def lookupCheckDoc (checks : List TestCheckDocumentation) (name : String) :
    Option TestCheckDocumentation :=
  checks.reverse.find? (fun c => c.name == name)

/-- Apply `f` to the last element of a list (identity on `[]`); the
embedding of a mutation through the `_case_report` / `_step_report`
aliases described on `TestScenarioState`. -/
def modifyLast {α : Type} (f : α → α) : List α → List α
  | [] => []
  | [x] => [f x]
  | x :: y :: rest => x :: modifyLast f (y :: rest)

/-- Dict assignment `notes[key] = n`: replaces the entry in place if the
key is present (keeping its position), otherwise appends. -/
def upsertNote (key : String) (n : Note) :
    List (String × Note) → List (String × Note)
  | [] => [(key, n)]
  | (k, v) :: rest =>
    if k = key then (k, n) :: rest else (k, v) :: upsertNote key n rest

/-- The report created by `TestScenario._make_scenario_report`. -/
def freshScenarioReport (s : TestScenarioState) (now : Nat) :
    TestScenarioReport :=
  { name := s.documentation.name,
    scenario_type := s.scenario_type,
    documentation_url := s.documentation.url,
    start_time := now,
    end_time := none,
    cases := [],
    notes := none,
    cleanup := none,
    execution_error := none,
    successful := none }

/-- Source `TestScenario._make_scenario_report`. -/
def _make_scenario_report (s : TestScenarioState) (now : Nat) :
    TestScenarioState :=
  { s with _scenario_report := some (freshScenarioReport s now) }

/-- Source `TestScenario.begin_test_scenario`. -/
def begin_test_scenario (s : TestScenarioState) (now : Nat) :
    TestScenarioState × Except PyError Unit :=
  match expectPhase s "begin_test_scenario" [ScenarioPhase.NotStarted] with
  | some e => (s, Except.error e)
  | none =>
    ({ _make_scenario_report s now with
        _phase := ScenarioPhase.ReadyForTestCase }, Except.ok ())

/-- The `RuntimeError` message for an undeclared test case name. -/
def undeclaredCaseMsg (s : TestScenarioState) (name : String) : String :=
  "Test scenario " ++ s.me ++ " was instructed to begin_test_case \"" ++ name
    ++ "\", but that test case is not declared in documentation; declared cases are: "
    ++ String.intercalate ", "
        (s.documentation.cases.map (fun c => "\"" ++ c.name ++ "\""))

/-- The `RuntimeError` message for a test case that already ran. -/
def duplicateCaseMsg (s : TestScenarioState) (name : String) : String :=
  "Test case " ++ name ++ " had already run in " ++ s.me
    ++ " when begin_test_case was called"

/-- Source `TestScenario.begin_test_case`. -/
def begin_test_case (s : TestScenarioState) (name : String) (now : Nat) :
    TestScenarioState × Except PyError Unit :=
  match expectPhase s "begin_test_case" [ScenarioPhase.ReadyForTestCase] with
  | some e => (s, Except.error e)
  | none =>
    match lookupCaseDoc s.documentation.cases name with
    | none =>
      (s, Except.error (PyError.runtimeError (undeclaredCaseMsg s name)))
    | some caseDoc =>
      match s._scenario_report with
      | none =>
        (s, Except.error (PyError.attributeError
          "NoneType object has no attribute cases"))
      | some r =>
        if name ∈ r.cases.map TestCaseReport.name then
          (s, Except.error (PyError.runtimeError (duplicateCaseMsg s name)))
        else
          let case_report : TestCaseReport :=
            { name := caseDoc.name,
              documentation_url := caseDoc.url,
              start_time := now,
              end_time := none,
              steps := [] }
          ({ s with
              _current_case := some caseDoc,
              _scenario_report := some { r with cases := r.cases ++ [case_report] },
              _phase := ScenarioPhase.ReadyForTestStep }, Except.ok ())

/-- Source `TestScenario.begin_test_step`. -/
def begin_test_step (s : TestScenarioState) (name : String) (now : Nat) :
    TestScenarioState × Except PyError Unit :=
  match expectPhase s "begin_test_step" [ScenarioPhase.ReadyForTestStep] with
  | some e => (s, Except.error e)
  | none =>
    match s._current_case with
    | none =>
      (s, Except.error (PyError.attributeError
        "NoneType object has no attribute steps"))
    | some currentCase =>
      match lookupStepDoc currentCase.steps name with
      | none =>
        (s, Except.error (PyError.runtimeError
          ("Test scenario " ++ s.me ++ " was instructed to begin_test_step \""
            ++ name ++ "\" during test case \"" ++ currentCase.name
            ++ "\", but that test step is not declared in documentation; declared steps are: "
            ++ String.intercalate ", "
                (currentCase.steps.map (fun st => "\"" ++ st.name ++ "\"")))))
      | some stepDoc =>
        match s._scenario_report with
        | none =>
          (s, Except.error (PyError.attributeError
            "NoneType object has no attribute steps"))
        | some r =>
          let step_report : TestStepReport :=
            { name := stepDoc.name,
              documentation_url := stepDoc.url,
              start_time := now,
              end_time := none,
              failed_checks := [],
              passed_checks := [],
              queries := none }
          let cases1 :=
            modifyLast (fun c => { c with steps := c.steps ++ [step_report] })
              r.cases
          ({ s with
              _current_step := some stepDoc,
              _scenario_report := some { r with cases := cases1 },
              _phase := ScenarioPhase.RunningTestStep }, Except.ok ())

/-- Source `TestScenario.record_query`: appends the opaque query record to the
current step report (initialising its `queries` field on first use). -/
def record_query (s : TestScenarioState) (query : Query) :
    TestScenarioState × Except PyError Unit :=
  match expectPhase s "record_query"
      [ScenarioPhase.RunningTestStep, ScenarioPhase.CleaningUp] with
  | some e => (s, Except.error e)
  | none =>
    match s._scenario_report with
    | none =>
      (s, Except.error (PyError.attributeError
        "NoneType object has no attribute queries"))
    | some r =>
      let f : TestStepReport → TestStepReport :=
        fun st => { st with queries := some (st.queries.getD [] ++ [query]) }
      if s._phase = ScenarioPhase.CleaningUp then
        ({ s with _scenario_report := some { r with cleanup := r.cleanup.map f } },
          Except.ok ())
      else
        let cases1 :=
          modifyLast (fun c => { c with steps := modifyLast f c.steps }) r.cases
        ({ s with _scenario_report := some { r with cases := cases1 } },
          Except.ok ())

/-- Source `TestScenario.check`: validates the check name against the current
documentation of the current step and returns a `PendingCheck` bound to the current
step report; the scenario state is not mutated. -/
def check (s : TestScenarioState) (name : String)
    (participants : Option (List ParticipantID)) :
    TestScenarioState × Except PyError PendingCheck :=
  match expectPhase s "check"
      [ScenarioPhase.RunningTestStep, ScenarioPhase.CleaningUp] with
  | some e => (s, Except.error e)
  | none =>
    match s._current_step with
    | none =>
      (s, Except.error (PyError.attributeError
        "NoneType object has no attribute checks"))
    | some currentStep =>
      match lookupCheckDoc currentStep.checks name with
      | none =>
        (s, Except.error (PyError.runtimeError
          ("Test scenario " ++ s.me
            ++ " was instructed to prepare to record outcome for check \""
            ++ name ++ "\" during test step \"" ++ currentStep.name
            ++ "\", but that check is not declared in documentation; declared checks are: "
            ++ String.intercalate ", " (currentStep.checks.map (fun c => c.name)))))
      | some check_documentation =>
        let step_report :=
          match s._scenario_report with
          | none => none
          | some r =>
            if s._phase = ScenarioPhase.CleaningUp then r.cleanup
            else match r.cases.getLast? with
              | none => none
              | some c => c.steps.getLast?
        match step_report with
        | none =>
          (s, Except.error (PyError.attributeError
            "NoneType object has no attribute failed_checks"))
        | some sr =>
          (s, Except.ok
            { _documentation := check_documentation,
              _participants := participants.getD [],
              _step_report := sr,
              _on_failed_check := s.on_failed_check,
              _outcome_recorded := false })

/-- Method `TestScenario.end_test_step`: stamps the end time of the
current step. -/
def end_test_step (s : TestScenarioState) (now : Nat) :
    TestScenarioState × Except PyError Unit :=
  match expectPhase s "end_test_step" [ScenarioPhase.RunningTestStep] with
  | some e => (s, Except.error e)
  | none =>
    match s._scenario_report with
    | none =>
      (s, Except.error (PyError.attributeError
        "NoneType object has no attribute end_time"))
    | some r =>
      let stamp : TestStepReport → TestStepReport :=
        fun st => { st with end_time := some now }
      let cases1 :=
        modifyLast (fun c => { c with steps := modifyLast stamp c.steps }) r.cases
      ({ s with
          _scenario_report := some { r with cases := cases1 },
          _current_step := none,
          _phase := ScenarioPhase.ReadyForTestStep }, Except.ok ())

/-- Method `TestScenario.end_test_case`: stamps the end time of the
current case. -/
def end_test_case (s : TestScenarioState) (now : Nat) :
    TestScenarioState × Except PyError Unit :=
  match expectPhase s "end_test_case" [ScenarioPhase.ReadyForTestStep] with
  | some e => (s, Except.error e)
  | none =>
    match s._scenario_report with
    | none =>
      (s, Except.error (PyError.attributeError
        "NoneType object has no attribute end_time"))
    | some r =>
      let cases1 := modifyLast (fun c => { c with end_time := some now }) r.cases
      ({ s with
          _scenario_report := some { r with cases := cases1 },
          _current_case := none,
          _phase := ScenarioPhase.ReadyForTestCase }, Except.ok ())

/-- Source `TestScenario.end_test_scenario`: stamps the scenario end time. -/
def end_test_scenario (s : TestScenarioState) (now : Nat) :
    TestScenarioState × Except PyError Unit :=
  match expectPhase s "end_test_scenario" [ScenarioPhase.ReadyForTestCase] with
  | some e => (s, Except.error e)
  | none =>
    match s._scenario_report with
    | none =>
      (s, Except.error (PyError.attributeError
        "NoneType object has no attribute end_time"))
    | some r =>
      ({ s with
          _scenario_report := some { r with end_time := some now },
          _phase := ScenarioPhase.ReadyForCleanup }, Except.ok ())

/-- Source `TestScenario.go_to_cleanup`: escape hatch into `ReadyForCleanup`. -/
def go_to_cleanup (s : TestScenarioState) :
    TestScenarioState × Except PyError Unit :=
  match expectPhase s "go_to_cleanup"
      [ScenarioPhase.ReadyForTestCase, ScenarioPhase.ReadyForTestStep,
        ScenarioPhase.RunningTestStep, ScenarioPhase.ReadyForCleanup] with
  | some e => (s, Except.error e)
  | none => ({ s with _phase := ScenarioPhase.ReadyForCleanup }, Except.ok ())

/-- Source `TestScenario.begin_cleanup`: requires a documented cleanup step and
creates the cleanup step report. -/
def begin_cleanup (s : TestScenarioState) (now : Nat) :
    TestScenarioState × Except PyError Unit :=
  match expectPhase s "begin_cleanup" [ScenarioPhase.ReadyForCleanup] with
  | some e => (s, Except.error e)
  | none =>
    match s.documentation.cleanup with
    | none =>
      (s, Except.error (PyError.runtimeError
        ("Test scenario " ++ s.me
          ++ " attempted to begin_cleanup, but no cleanup step is documented")))
    | some cleanupDoc =>
      match s._scenario_report with
      | none =>
        (s, Except.error (PyError.attributeError
          "NoneType object has no attribute cleanup"))
      | some r =>
        let step_report : TestStepReport :=
          { name := cleanupDoc.name,
            documentation_url := cleanupDoc.url,
            start_time := now,
            end_time := none,
            failed_checks := [],
            passed_checks := [],
            queries := none }
        ({ s with
            _current_step := some cleanupDoc,
            _scenario_report := some { r with cleanup := some step_report },
            _phase := ScenarioPhase.CleaningUp }, Except.ok ())

/-- Source `TestScenario.skip_cleanup`: requires that NO cleanup step is
documented. -/
def skip_cleanup (s : TestScenarioState) :
    TestScenarioState × Except PyError Unit :=
  match expectPhase s "skip_cleanup" [ScenarioPhase.ReadyForCleanup] with
  | some e => (s, Except.error e)
  | none =>
    match s.documentation.cleanup with
    | some _ =>
      (s, Except.error (PyError.runtimeError
        ("Test scenario " ++ s.me
          ++ " skipped cleanup even though a cleanup step is documented")))
    | none => ({ s with _phase := ScenarioPhase.Complete }, Except.ok ())

/-- Method `TestScenario.end_cleanup`: stamps the end time of the cleanup
step. -/
def end_cleanup (s : TestScenarioState) (now : Nat) :
    TestScenarioState × Except PyError Unit :=
  match expectPhase s "end_cleanup" [ScenarioPhase.CleaningUp] with
  | some e => (s, Except.error e)
  | none =>
    match s._scenario_report with
    | none =>
      (s, Except.error (PyError.attributeError
        "NoneType object has no attribute end_time"))
    | some r =>
      let cleanup1 := r.cleanup.map (fun st => { st with end_time := some now })
      ({ s with
          _scenario_report := some { r with cleanup := cleanup1 },
          _phase := ScenarioPhase.Complete }, Except.ok ())

/-- Source `TestScenario.record_note`: allowed in every phase except `Undefined`
and `Complete`; upserts a timestamped note keyed by `key` into the
notes map of the scenario report.  Note that the source dereferences
`self._scenario_report` unconditionally after the phase test, so in
`NotStarted` (where no report exists yet) the membership test
`"notes" not in self._scenario_report` raises a `TypeError`. -/
def record_note (s : TestScenarioState) (key : String) (message : String)
    (now : Nat) : TestScenarioState × Except PyError Unit :=
  match expectPhase s "record_note"
      [ScenarioPhase.NotStarted, ScenarioPhase.ReadyForTestCase,
        ScenarioPhase.ReadyForTestStep, ScenarioPhase.RunningTestStep,
        ScenarioPhase.ReadyForCleanup, ScenarioPhase.CleaningUp] with
  | some e => (s, Except.error e)
  | none =>
    match s._scenario_report with
    | none =>
      (s, Except.error (PyError.typeError
        "argument of type NoneType is not iterable"))
    | some r =>
      let notes := r.notes.getD []
      let notes1 := upsertNote key { message := message, timestamp := now } notes
      ({ s with _scenario_report := some { r with notes := some notes1 } },
        Except.ok ())

/-- Source `TestScenario.record_execution_error`: fails when already `Complete`;
otherwise creates the scenario report if absent, attaches the error
record, forces `successful := false` and moves to `Complete`. -/
def record_execution_error (s : TestScenarioState) (e : ErrorReport)
    (now : Nat) : TestScenarioState × Except PyError Unit :=
  if s._phase = ScenarioPhase.Complete then
    (s, Except.error (PyError.runtimeError
      ("Test scenario " ++ s.me
        ++ " indicated an execution error even though it was already Complete")))
  else
    let s1 := match s._scenario_report with
      | none => _make_scenario_report s now
      | some _ => s
    let r := s1._scenario_report.getD (freshScenarioReport s now)
    ({ s1 with
        _scenario_report := some
          { r with execution_error := some e, successful := some false },
        _phase := ScenarioPhase.Complete }, Except.ok ())

/-- The success-evaluation loops of `TestScenario.get_report`, embedded as
folds: start from "no execution error", then scan every failed check of
every step of every case, then of the cleanup step if present, forcing
`false` whenever a severity other than `Low` is found. -/
def computeSuccessful (r : TestScenarioReport) : Bool :=
  let s0 := r.execution_error.isNone
  let stepFold : Bool → TestStepReport → Bool :=
    fun acc st => st.failed_checks.foldl
      (fun acc2 fc => if fc.severity ≠ Severity.Low then false else acc2) acc
  let s1 := r.cases.foldl (fun acc c => c.steps.foldl stepFold acc) s0
  match r.cleanup with
  | none => s1
  | some cl => cl.failed_checks.foldl
      (fun acc2 fc => if fc.severity ≠ Severity.Low then false else acc2) s1

/-- The first half of `TestScenario.get_report`: create the scenario
report if absent; if no execution error is attached, demand phase
`Complete` and record the resulting `RuntimeError` as an execution error
when that demand fails.  Returns the state and report entering the
success evaluation. -/
def get_report_pre (s : TestScenarioState) (now : Nat) :
    TestScenarioState × TestScenarioReport :=
  let s1 := match s._scenario_report with
    | none => _make_scenario_report s now
    | some _ => s
  let r1 := s1._scenario_report.getD (freshScenarioReport s now)
  if r1.execution_error.isNone then
    match expectPhase s1 "get_report" [ScenarioPhase.Complete] with
    | none => (s1, r1)
    | some (PyError.runtimeError m) =>
      let sx := (record_execution_error s1 m now).1
      (sx, sx._scenario_report.getD r1)
    | some _ => (s1, r1)
  else (s1, r1)

/-- Source `TestScenario.get_report`: the first half (`get_report_pre`) followed
by the success evaluation, whose result is stored in the report and
returned. -/
def get_report (s : TestScenarioState) (now : Nat) :
    TestScenarioState × TestScenarioReport :=
  let p := get_report_pre s now
  let r3 := { p.2 with successful := some (computeSuccessful p.2) }
  ({ p.1 with _scenario_report := some r3 }, r3)

/-- Resource-pool lookup (`resource_pool[arg_name]` on a dict modelled as
an association list in insertion order). -/
def lookupResource {Res : Type} (name : String) :
    List (String × Res) → Option Res
  | [] => none
  | (k, v) :: rest => if k == name then some v else lookupResource name rest

/-- The `ValueError` message raised by `TestScenario.make_test_scenario`
when a constructor dependency is missing: it names the missing argument
and lists the available pool keys. -/
def missingResourceMsg {Res : Type} (scenario_type : String)
    (arg_name : String) (pool : List (String × Res)) : String :=
  "Resource to populate test scenario argument \"" ++ arg_name
    ++ "\" was not found in the resource pool when trying to create "
    ++ scenario_type ++ " test scenario (resource pool: "
    ++ String.intercalate ", " (pool.map Prod.fst) ++ ")"

/-- The dependency-binding loop of `TestScenario.make_test_scenario`:
walk the parameter names of the constructor signature in order, skip a
parameter named self,
fail with a `ValueError` at the first name absent from the pool, and
otherwise accumulate `constructor_args` in parameter order. -/
def buildConstructorArgs {Res : Type} (scenario_type : String)
    (pool : List (String × Res)) :
    List String → List (String × Res) → Except PyError (List (String × Res))
  | [], acc => Except.ok acc
  | arg_name :: rest, acc =>
    if arg_name == "self" then buildConstructorArgs scenario_type pool rest acc
    else match lookupResource arg_name pool with
      | none => Except.error (PyError.valueError
          (missingResourceMsg scenario_type arg_name pool))
      | some v => buildConstructorArgs scenario_type pool rest (acc ++ [(arg_name, v)])

/-- Source `TestScenario.make_test_scenario`, from the point where the scenario
type has been resolved: `params` are the parameter names of the
constructor signature (as produced by the runtime introspection in the
source, including self), `pool` is the resource pool, and `ctor` is the
constructor of the scenario type, invoked exactly once, on the fully resolved argument list —
the only place `ctor` is applied is the success branch. -/
def make_test_scenario {Res α : Type} (scenario_type : String)
    (params : List String) (pool : List (String × Res))
    (ctor : List (String × Res) → α) : Except PyError α :=
  match buildConstructorArgs scenario_type pool params [] with
  | Except.error e => Except.error e
  | Except.ok constructor_args => Except.ok (ctor constructor_args)

/-- The first constructor parameter (other than `self`) that is absent
from the resource pool. -/
def firstMissingParam {Res : Type} (params : List String)
    (pool : List (String × Res)) : Option String :=
  params.find? (fun a => !(a == "self") && (lookupResource a pool).isNone)

/-- The argument list `make_test_scenario` hands to the constructor when
every dependency resolves. -/
def resolveArgs {Res : Type} (pool : List (String × Res)) :
    List String → List (String × Res)
  | [] => []
  | a :: rest =>
    if a == "self" then resolveArgs pool rest
    else match lookupResource a pool with
      | none => resolveArgs pool rest
      | some v => (a, v) :: resolveArgs pool rest

/-- A class member observed during namespace traversal, identified by its
stable fully-qualified name, with the two predicates the source tests
(`issubclass(member, TestScenario)` and `member is TestScenario`). -/
structure PyClass where
  fullName : String
  isTestScenarioSubclass : Bool
  isBase : Bool

/-- A module of the scanned namespace: its `__name__` plus its module
members and class members (the call to getmembers in the source enumerates
both, sorted by attribute name; class members never touch the
visited-module set, so listing modules before classes is
order-equivalent). -/
inductive PyModule : Type where
  | mk : String → List PyModule → List PyClass → PyModule

/-- Source `__name__` of a module. -/
def PyModule.name : PyModule → String
  | PyModule.mk n _ _ => n

/-- Source `already_checked.add(name)` on a set modelled as a duplicate-free
list. -/
def addName (n : String) (l : List String) : List String :=
  if n ∈ l then l else l ++ [n]

/-- Source `if member not in test_scenarios: test_scenarios.add(member)`. -/
def addScenario (x : String) (l : List String) : List String :=
  if x ∈ l then l else l ++ [x]

/-- Adding every element of `xs` to the scenario set, in order. -/
def addScenarios (xs : List String) (l : List String) : List String :=
  xs.foldl (fun acc d => addScenario d acc) l

/-- The module-name filter of the traversal. -/
def scenariosRoot : String := "monitoring.uss_qualifier.scenarios"

/-- Embedding of the final sort by fullname: the Python sort produces the
(unique, for a linear order) sorted arrangement of the collected names. -/
def sortScenarioNames (l : List String) : List String :=
  List.insertionSort (fun a b => a ≤ b) l

mutual

/-- Source `find_test_scenarios(module, already_checked)`: marks the module
visited, recurses into unvisited member modules under the scenarios
namespace (threading the shared visited set), accumulates the scenario
classes found, and returns the result sorted by fully-qualified name
together with the updated visited set. -/
def find_test_scenarios_impl : PyModule → List String →
    List String × List String
  | PyModule.mk nm subs cls, already_checked =>
    let checked1 := addName nm already_checked
    let res := moduleMembersLoop subs [] checked1
    let scen2 := cls.foldl
      (fun acc c =>
        if c.isTestScenarioSubclass ∧ ¬ c.isBase then addScenario c.fullName acc
        else acc)
      res.1
    (sortScenarioNames scen2, res.2)

/-- The member-module part of the `inspect.getmembers` loop. -/
def moduleMembersLoop : List PyModule → List String → List String →
    List String × List String
  | [], scen, checked => (scen, checked)
  | sub :: rest, scen, checked =>
    if sub.name ∉ checked ∧ String.startsWith sub.name scenariosRoot then
      let res := find_test_scenarios_impl sub checked
      moduleMembersLoop rest (addScenarios res.1 scen) res.2
    else moduleMembersLoop rest scen checked

end

/-- Source `find_test_scenarios(module)` (fresh `already_checked`). -/
def find_test_scenarios (m : PyModule) : List String :=
  (find_test_scenarios_impl m []).1

/-- The phase-machine operations of the claim surface, with their
arguments. -/
inductive Op where
  | begin_test_scenario (now : Nat)
  | begin_test_case (name : String) (now : Nat)
  | begin_test_step (name : String) (now : Nat)
  | end_test_step (now : Nat)
  | end_test_case (now : Nat)
  | end_test_scenario (now : Nat)
  | go_to_cleanup
  | begin_cleanup (now : Nat)
  | skip_cleanup
  | end_cleanup (now : Nat)
  | record_query (q : Query)
  | check (name : String) (participants : Option (List ParticipantID))

/-- The valid source phases of each operation, exactly the sets each
method passes to `_expect_phase`. -/
def opValidPhases : Op → List ScenarioPhase
  | Op.begin_test_scenario _ => [ScenarioPhase.NotStarted]
  | Op.begin_test_case _ _ => [ScenarioPhase.ReadyForTestCase]
  | Op.begin_test_step _ _ => [ScenarioPhase.ReadyForTestStep]
  | Op.end_test_step _ => [ScenarioPhase.RunningTestStep]
  | Op.end_test_case _ => [ScenarioPhase.ReadyForTestStep]
  | Op.end_test_scenario _ => [ScenarioPhase.ReadyForTestCase]
  | Op.go_to_cleanup =>
    [ScenarioPhase.ReadyForTestCase, ScenarioPhase.ReadyForTestStep,
      ScenarioPhase.RunningTestStep, ScenarioPhase.ReadyForCleanup]
  | Op.begin_cleanup _ => [ScenarioPhase.ReadyForCleanup]
  | Op.skip_cleanup => [ScenarioPhase.ReadyForCleanup]
  | Op.end_cleanup _ => [ScenarioPhase.CleaningUp]
  | Op.record_query _ =>
    [ScenarioPhase.RunningTestStep, ScenarioPhase.CleaningUp]
  | Op.check _ _ =>
    [ScenarioPhase.RunningTestStep, ScenarioPhase.CleaningUp]

/-- Dispatch an operation to its method (the `PendingCheck` returned by
`check` is discarded for the uniform result type). -/
def runOp (op : Op) (s : TestScenarioState) :
    TestScenarioState × Except PyError Unit :=
  match op with
  | Op.begin_test_scenario now => begin_test_scenario s now
  | Op.begin_test_case name now => begin_test_case s name now
  | Op.begin_test_step name now => begin_test_step s name now
  | Op.end_test_step now => end_test_step s now
  | Op.end_test_case now => end_test_case s now
  | Op.end_test_scenario now => end_test_scenario s now
  | Op.go_to_cleanup => go_to_cleanup s
  | Op.begin_cleanup now => begin_cleanup s now
  | Op.skip_cleanup => skip_cleanup s
  | Op.end_cleanup now => end_cleanup s now
  | Op.record_query q => record_query s q
  | Op.check name participants =>
    let (s1, res) := check s name participants
    (s1, res.map (fun _ => ()))

/-- A small concrete documentation fixture (the end-to-end example of the
spec:
case "Setup" with step "Clear area" containing check "Area is clear", no
cleanup step). -/
def sampleDoc : TestScenarioDocumentation :=
  { name := "Sample scenario",
    url := "scenario-doc-url",
    cases :=
      [ { name := "Setup",
          url := "case-doc-url",
          steps :=
            [ { name := "Clear area",
                url := "step-doc-url",
                checks :=
                  [ { name := "Area is clear",
                      url := "check-doc-url",
                      applicable_requirements := ["REQ-001"] } ] } ] } ],
    cleanup := none }

/-- A freshly constructed scenario instance: phase `NotStarted`, no
report. -/
def freshScenarioState : TestScenarioState :=
  { me := "scenarios.sample.SampleScenario",
    scenario_type := "scenarios.sample.SampleScenario",
    documentation := sampleDoc,
    on_failed_check := false,
    _phase := ScenarioPhase.NotStarted,
    _scenario_report := none,
    _current_case := none,
    _current_step := none }

/-- A concrete check documentation fixture. -/
def sampleCheckDoc : TestCheckDocumentation :=
  { name := "Area is clear",
    url := "check-doc-url",
    applicable_requirements := ["REQ-001"] }

/-- A concrete empty step report fixture. -/
def sampleStepReport : TestStepReport :=
  { name := "Clear area",
    documentation_url := "step-doc-url",
    start_time := 0,
    end_time := none,
    failed_checks := [],
    passed_checks := [],
    queries := none }

/-- A concrete pending check with no outcome recorded yet. -/
def samplePendingCheck : PendingCheck :=
  { _documentation := sampleCheckDoc,
    _participants := [],
    _step_report := sampleStepReport,
    _on_failed_check := false,
    _outcome_recorded := false }

/-- The caller name each operation reports in its `_expect_phase`
message. -/
def opCaller : Op → String
  | Op.begin_test_scenario _ => "begin_test_scenario"
  | Op.begin_test_case _ _ => "begin_test_case"
  | Op.begin_test_step _ _ => "begin_test_step"
  | Op.end_test_step _ => "end_test_step"
  | Op.end_test_case _ => "end_test_case"
  | Op.end_test_scenario _ => "end_test_scenario"
  | Op.go_to_cleanup => "go_to_cleanup"
  | Op.begin_cleanup _ => "begin_cleanup"
  | Op.skip_cleanup => "skip_cleanup"
  | Op.end_cleanup _ => "end_cleanup"
  | Op.record_query _ => "record_query"
  | Op.check _ _ => "check"

theorem expectPhase_of_not_mem (s : TestScenarioState) (caller : String)
    (expected : List ScenarioPhase) (h : s._phase ∉ expected) :
    expectPhase s caller expected
      = some (PyError.runtimeError (expectPhaseMsg s caller expected)) := by
  simp [expectPhase, h]

/-- C1: invoking any phase-machine operation from a phase not listed as
valid for it returns the `RuntimeError` of `_expect_phase` (a protocol
violation) and leaves the scenario state — phase and report tree —
unchanged. -/
theorem wrong_phase_rejected (op : Op) (s : TestScenarioState)
    (h : s._phase ∉ opValidPhases op) :
    runOp op s = (s, Except.error (PyError.runtimeError
      (expectPhaseMsg s (opCaller op) (opValidPhases op)))) := by
  cases op <;>
    (simp only [opValidPhases] at h;
      simp [runOp, opValidPhases, opCaller, begin_test_scenario,
        begin_test_case, begin_test_step, end_test_step, end_test_case,
        end_test_scenario, go_to_cleanup, begin_cleanup, skip_cleanup,
        end_cleanup, record_query, check, Except.map,
        expectPhase_of_not_mem _ _ _ h])

/-- Witness for C1: calling `end_cleanup` on a freshly constructed
scenario (phase `NotStarted`) is rejected and mutates nothing. -/
theorem wrong_phase_rejected_witness :
    freshScenarioState._phase ∉ opValidPhases (Op.end_cleanup 3)
    ∧ runOp (Op.end_cleanup 3) freshScenarioState
      = (freshScenarioState, Except.error (PyError.runtimeError
          (expectPhaseMsg freshScenarioState "end_cleanup"
            [ScenarioPhase.CleaningUp]))) :=
  ⟨by decide, wrong_phase_rejected (Op.end_cleanup 3) freshScenarioState
    (by decide)⟩

/-- C3: `record_failed` appends exactly one `FailedCheck` to the bound
step report, passes exactly that check to the failure observer when one
is attached (and nothing otherwise), and only then escalates by severity:
Low returns normally, High raises the scenario-abort signal, Critical
raises the run-abort signal — a constructor distinct from the
scenario-abort one. -/
theorem record_failed_spec (pc : PendingCheck) (summary : String)
    (severity : Severity) (details : String)
    (participants : Option (List ParticipantID))
    (query_timestamps : Option (List Nat)) (additional_data : Option String)
    (requirements : Option (List String)) (now : Nat) :
    ∃ fc : FailedCheck,
      (pc.record_failed summary severity details participants
          query_timestamps additional_data requirements now).pc._step_report.failed_checks
        = pc._step_report.failed_checks ++ [fc]
      ∧ fc.severity = severity
      ∧ fc.summary = summary
      ∧ (pc.record_failed summary severity details participants
          query_timestamps additional_data requirements now).pc._step_report.passed_checks
        = pc._step_report.passed_checks
      ∧ (pc.record_failed summary severity details participants
          query_timestamps additional_data requirements now).notified
        = (if pc._on_failed_check then [fc] else [])
      ∧ (pc.record_failed summary severity details participants
          query_timestamps additional_data requirements now).outcome
        = (match severity with
            | Severity.Low => CheckOutcome.ok
            | Severity.High => CheckOutcome.scenarioCannotContinue
                (severityStr Severity.High ++ "-severity issue: " ++ summary)
            | Severity.Critical => CheckOutcome.testRunCannotContinue
                (severityStr Severity.Critical ++ "-severity issue: " ++ summary))
      ∧ (∀ m m2 : String, CheckOutcome.scenarioCannotContinue m
          ≠ CheckOutcome.testRunCannotContinue m2) := by
  refine ⟨{ name := pc._documentation.name,
            documentation_url := pc._documentation.url,
            timestamp := now,
            summary := summary,
            details := details,
            requirements := requirements.getD pc._documentation.applicable_requirements,
            severity := severity,
            participants := participants.getD pc._participants,
            additional_data := additional_data,
            query_report_timestamps := query_timestamps },
          rfl, rfl, rfl, rfl, rfl, ?_, ?_⟩
  · cases severity <;> rfl
  · intro m m2 hcontra
    exact CheckOutcome.noConfusion hcontra

/-- C4: a pending check whose outcome was never explicitly recorded
appends exactly one `PassedCheck` when its scope ends, and the effect of
the scope exit does not depend on whether the scope ended normally or via
an exception. -/
theorem pending_check_auto_pass (pc : PendingCheck) (exc : Option String)
    (h : pc._outcome_recorded = false) :
    ∃ p : PassedCheck,
      (pc.exitScope exc)._step_report.passed_checks
        = pc._step_report.passed_checks ++ [p]
      ∧ (pc.exitScope exc)._step_report.failed_checks
        = pc._step_report.failed_checks
      ∧ pc.exitScope exc = pc.exitScope none := by
  refine ⟨{ name := pc._documentation.name,
            participants := pc._participants,
            requirements := pc._documentation.applicable_requirements },
          ?_, ?_, rfl⟩ <;>
    simp [PendingCheck.exitScope, PendingCheck.record_passed, h]

/-- Witness for C4: the sample pending check auto-records a pass on
scope exit. -/
theorem pending_check_auto_pass_witness :
    samplePendingCheck._outcome_recorded = false
    ∧ ∃ p : PassedCheck,
      (samplePendingCheck.exitScope (some "IndexError"))._step_report.passed_checks
        = samplePendingCheck._step_report.passed_checks ++ [p]
      ∧ (samplePendingCheck.exitScope (some "IndexError"))._step_report.failed_checks
        = samplePendingCheck._step_report.failed_checks
      ∧ samplePendingCheck.exitScope (some "IndexError")
        = samplePendingCheck.exitScope none :=
  ⟨rfl, pending_check_auto_pass samplePendingCheck (some "IndexError") rfl⟩

/-- Counterexample to C5: calling `record_passed` a second time on a
handle whose outcome is already recorded is NOT rejected — neither
`record_passed` nor `record_failed` inspects `_outcome_recorded` — and a
second `PassedCheck` is appended. -/
theorem double_record_passed_not_rejected :
    ((samplePendingCheck.record_passed none none).record_passed
        none none)._step_report.passed_checks.length = 2 := by
  rfl

/-- C5 as amended: the `_outcome_recorded` flag only suppresses the
automatic pass at scope exit — after any recorded outcome the scope exit
is a no-op — while a second explicit `record_passed` call is accepted and
appends a second check record. -/
theorem second_outcome_appends_again (pc : PendingCheck)
    (participants requirements participants2 requirements2 :
      Option (List ParticipantID)) (exc : Option String) :
    (pc.record_passed participants requirements)._outcome_recorded = true
    ∧ (pc.record_passed participants requirements).exitScope exc
      = pc.record_passed participants requirements
    ∧ ((pc.record_passed participants requirements).record_passed
          participants2 requirements2)._step_report.passed_checks.length
      = pc._step_report.passed_checks.length + 2 := by
  refine ⟨rfl, ?_, ?_⟩
  · simp [PendingCheck.exitScope, PendingCheck.record_passed]
  · simp [PendingCheck.record_passed]

/-- Evaluation of the failing input of C7: `record_note` called on a freshly
constructed scenario.  The phase `NotStarted` passes the `_expect_phase`
test (the source lists it as acceptable), but `_scenario_report` is still
`None` in that phase, so the membership test
`"notes" not in self._scenario_report` raises a `TypeError` instead of
upserting the note. -/
theorem record_note_crashes_before_start :
    record_note freshScenarioState "observed" "a note" 5
      = (freshScenarioState, Except.error (PyError.typeError
          "argument of type NoneType is not iterable")) := by
  rfl

/-- C10: `record_execution_error` called before `begin_test_scenario`
(phase `NotStarted` or `Undefined`, no report yet) creates a fresh, empty
scenario report, attaches the error record to it, forces
`successful := false`, and completes the scenario. -/
theorem record_execution_error_fresh (s : TestScenarioState)
    (e : ErrorReport) (now : Nat)
    (h1 : s._phase = ScenarioPhase.NotStarted
      ∨ s._phase = ScenarioPhase.Undefined)
    (h2 : s._scenario_report = none) :
    record_execution_error s e now
      = ({ s with
            _scenario_report := some
              { freshScenarioReport s now with
                  execution_error := some e, successful := some false },
            _phase := ScenarioPhase.Complete }, Except.ok ()) := by
  have hne : s._phase ≠ ScenarioPhase.Complete := by
    rcases h1 with h | h <;> simp [h]
  unfold record_execution_error
  simp [hne, h2, _make_scenario_report]

/-- Witness for C10: a fresh scenario records an execution error before
any lifecycle call. -/
theorem record_execution_error_fresh_witness :
    (freshScenarioState._phase = ScenarioPhase.NotStarted
        ∨ freshScenarioState._phase = ScenarioPhase.Undefined)
    ∧ freshScenarioState._scenario_report = none
    ∧ record_execution_error freshScenarioState "boom" 7
      = ({ freshScenarioState with
            _scenario_report := some
              { freshScenarioReport freshScenarioState 7 with
                  execution_error := some "boom", successful := some false },
            _phase := ScenarioPhase.Complete }, Except.ok ()) :=
  ⟨Or.inl rfl, rfl,
    record_execution_error_fresh freshScenarioState "boom" 7 (Or.inl rfl) rfl⟩

theorem lookupCaseDoc_eq_none_iff (cases : List TestCaseDocumentation)
    (name : String) :
    lookupCaseDoc cases name = none
      ↔ name ∉ cases.map TestCaseDocumentation.name := by
  simp only [lookupCaseDoc, List.find?_eq_none, List.mem_reverse,
    List.mem_map, beq_iff_eq]
  constructor
  · rintro h ⟨c, hc, hcn⟩
    exact h c hc hcn
  · rintro h c hc hcn
    exact h ⟨c, hc, hcn⟩

theorem lookupCaseDoc_name (cases : List TestCaseDocumentation)
    (name : String) (c : TestCaseDocumentation)
    (h : lookupCaseDoc cases name = some c) : c.name = name := by
  have := List.find?_some h
  simpa using this

/-- C2: in phase `ReadyForTestCase`, `begin_test_case(name)` fails with a
`RuntimeError` when `name` is undeclared or a case report with that name
already exists; otherwise it appends exactly one new (empty) `CaseReport`
for the declared case and moves to `ReadyForTestStep`. -/
theorem begin_test_case_spec (s : TestScenarioState)
    (r : TestScenarioReport) (name : String) (now : Nat)
    (hphase : s._phase = ScenarioPhase.ReadyForTestCase)
    (hreport : s._scenario_report = some r) :
    ((name ∉ s.documentation.cases.map TestCaseDocumentation.name
        ∨ name ∈ r.cases.map TestCaseReport.name) →
      ∃ msg, begin_test_case s name now
        = (s, Except.error (PyError.runtimeError msg)))
    ∧ (name ∈ s.documentation.cases.map TestCaseDocumentation.name →
       name ∉ r.cases.map TestCaseReport.name →
      ∃ caseDoc newCase,
        lookupCaseDoc s.documentation.cases name = some caseDoc
        ∧ caseDoc.name = name
        ∧ newCase = ({ name := caseDoc.name,
                       documentation_url := caseDoc.url,
                       start_time := now,
                       end_time := none,
                       steps := [] } : TestCaseReport)
        ∧ begin_test_case s name now
          = ({ s with
                _current_case := some caseDoc,
                _scenario_report := some { r with cases := r.cases ++ [newCase] },
                _phase := ScenarioPhase.ReadyForTestStep }, Except.ok ())) := by
  constructor
  · intro hbad
    rcases hbad with hun | hdup
    · have hnone : lookupCaseDoc s.documentation.cases name = none :=
        (lookupCaseDoc_eq_none_iff _ _).mpr hun
      exact ⟨undeclaredCaseMsg s name,
        by simp [begin_test_case, expectPhase, hphase, hnone]⟩
    · cases hcd : lookupCaseDoc s.documentation.cases name with
      | none =>
        exact ⟨undeclaredCaseMsg s name,
          by simp [begin_test_case, expectPhase, hphase, hcd]⟩
      | some caseDoc =>
        exact ⟨duplicateCaseMsg s name,
          by simp [begin_test_case, expectPhase, hphase, hcd, hreport, hdup]⟩
  · intro hdecl hnodup
    have hsome : lookupCaseDoc s.documentation.cases name ≠ none := by
      rw [Ne, lookupCaseDoc_eq_none_iff]
      exact fun h => h hdecl
    obtain ⟨caseDoc, hcd⟩ := Option.ne_none_iff_exists'.mp hsome
    refine ⟨caseDoc, _, hcd, lookupCaseDoc_name _ _ _ hcd, rfl, ?_⟩
    simp [begin_test_case, expectPhase, hphase, hcd, hreport, hnodup]

/-- The scenario report right after `begin_test_scenario` at time 1. -/
def sampleInitialReport : TestScenarioReport :=
  freshScenarioReport freshScenarioState 1

/-- The sample scenario right after `begin_test_scenario` at time 1. -/
def readyState : TestScenarioState :=
  { freshScenarioState with
      _phase := ScenarioPhase.ReadyForTestCase,
      _scenario_report := some sampleInitialReport }

/-- Witness for C2: beginning the declared case "Setup" appends one case
report and moves to `ReadyForTestStep`. -/
theorem begin_test_case_spec_witness :
    readyState._phase = ScenarioPhase.ReadyForTestCase
    ∧ readyState._scenario_report = some sampleInitialReport
    ∧ "Setup" ∈ readyState.documentation.cases.map TestCaseDocumentation.name
    ∧ "Setup" ∉ sampleInitialReport.cases.map TestCaseReport.name
    ∧ ∃ caseDoc newCase,
        lookupCaseDoc readyState.documentation.cases "Setup" = some caseDoc
        ∧ caseDoc.name = "Setup"
        ∧ newCase = ({ name := caseDoc.name,
                       documentation_url := caseDoc.url,
                       start_time := 2,
                       end_time := none,
                       steps := [] } : TestCaseReport)
        ∧ begin_test_case readyState "Setup" 2
          = ({ readyState with
                _current_case := some caseDoc,
                _scenario_report := some
                  { sampleInitialReport with
                      cases := sampleInitialReport.cases ++ [newCase] },
                _phase := ScenarioPhase.ReadyForTestStep }, Except.ok ()) :=
  ⟨rfl, rfl, by decide, by decide,
    (begin_test_case_spec readyState sampleInitialReport "Setup" 2 rfl rfl).2
      (by decide) (by decide)⟩

theorem buildConstructorArgs_missing {Res : Type} (scenario_type : String)
    (pool : List (String × Res)) (params : List String) (a : String)
    (acc : List (String × Res))
    (h : firstMissingParam params pool = some a) :
    buildConstructorArgs scenario_type pool params acc
      = Except.error (PyError.valueError
          (missingResourceMsg scenario_type a pool)) := by
  induction params generalizing acc with
  | nil => simp [firstMissingParam] at h
  | cons p rest ih =>
    by_cases hp : (!(p == "self") && (lookupResource p pool).isNone) = true
    · have ha : p = a := by
        have := List.find?_cons_of_pos (l := rest) (a := p)
          (p := fun x => !(x == "self") && (lookupResource x pool).isNone) hp
        rw [firstMissingParam, this] at h
        exact Option.some.inj h
      subst ha
      obtain ⟨hself, hnone⟩ := Bool.and_eq_true_iff.mp hp
      have hself2 : ¬ (p == "self") = true := by
        simpa using hself
      have hnone2 : lookupResource p pool = none :=
        Option.isNone_iff_eq_none.mp hnone
      simp [buildConstructorArgs, hself2, hnone2]
    · have hrest : firstMissingParam rest pool = some a := by
        have := List.find?_cons_of_neg (l := rest) (a := p)
          (p := fun x => !(x == "self") && (lookupResource x pool).isNone) hp
        rw [firstMissingParam, this] at h
        exact h
      by_cases hs : (p == "self") = true
      · simp only [buildConstructorArgs, hs, if_true]
        exact ih _ hrest
      · have hsome : (lookupResource p pool).isSome = true := by
          rcases hi : (lookupResource p pool).isNone with _ | _
          · simp [Option.isSome_iff_ne_none, ← Option.isNone_iff_eq_none, hi]
          · exact absurd (by simp [hs, hi]) hp
        obtain ⟨v, hv⟩ := Option.isSome_iff_exists.mp hsome
        simp only [buildConstructorArgs, hs, if_false, hv]
        exact ih _ hrest

theorem buildConstructorArgs_complete {Res : Type} (scenario_type : String)
    (pool : List (String × Res)) (params : List String)
    (acc : List (String × Res))
    (h : firstMissingParam params pool = none) :
    buildConstructorArgs scenario_type pool params acc
      = Except.ok (acc ++ resolveArgs pool params) := by
  induction params generalizing acc with
  | nil => simp [buildConstructorArgs, resolveArgs]
  | cons p rest ih =>
    have hp : ¬ ((!(p == "self") && (lookupResource p pool).isNone) = true) := by
      intro hcontra
      have := List.find?_cons_of_pos (l := rest) (a := p)
        (p := fun x => !(x == "self") && (lookupResource x pool).isNone) hcontra
      rw [firstMissingParam, this] at h
      exact Option.noConfusion h
    have hrest : firstMissingParam rest pool = none := by
      have := List.find?_cons_of_neg (l := rest) (a := p)
        (p := fun x => !(x == "self") && (lookupResource x pool).isNone) hp
      rw [firstMissingParam, this] at h
      exact h
    by_cases hs : (p == "self") = true
    · simp only [buildConstructorArgs, resolveArgs, hs, if_true]
      exact ih _ hrest
    · have hsome : (lookupResource p pool).isSome = true := by
        rcases hi : (lookupResource p pool).isNone with _ | _
        · simp [Option.isSome_iff_ne_none, ← Option.isNone_iff_eq_none, hi]
        · exact absurd (by simp [hs, hi]) hp
      obtain ⟨v, hv⟩ := Option.isSome_iff_exists.mp hsome
      simp only [buildConstructorArgs, resolveArgs, hs, if_false, hv]
      exact (ih (acc ++ [(p, v)]) hrest).trans (by simp)

/-- C8: if some declared constructor dependency is missing from the
resource pool, `make_test_scenario` fails with the `ValueError` that names
the (first) missing dependency and lists the available pool keys, and the
result does not depend on the constructor — it is never invoked; when
every dependency resolves, the constructor is invoked exactly once, on the
fully resolved argument list. -/
theorem make_test_scenario_spec {Res α : Type} :
    (∀ (scenario_type : String) (params : List String)
        (pool : List (String × Res))
        (ctor ctor2 : List (String × Res) → α) (a : String),
      firstMissingParam params pool = some a →
        make_test_scenario scenario_type params pool ctor
          = Except.error (PyError.valueError
              (missingResourceMsg scenario_type a pool))
        ∧ make_test_scenario scenario_type params pool ctor
          = make_test_scenario scenario_type params pool ctor2)
    ∧ (∀ (scenario_type : String) (params : List String)
        (pool : List (String × Res)) (ctor : List (String × Res) → α),
      firstMissingParam params pool = none →
        make_test_scenario scenario_type params pool ctor
          = Except.ok (ctor (resolveArgs pool params))) := by
  constructor
  · intro scenario_type params pool ctor ctor2 a h
    have hb := buildConstructorArgs_missing scenario_type pool params a [] h
    constructor
    · simp [make_test_scenario, hb]
    · simp [make_test_scenario, hb]
  · intro scenario_type params pool ctor h
    have hb := buildConstructorArgs_complete scenario_type pool params [] h
    simp [make_test_scenario, hb]

/-- Witness for C8: constructing a scenario whose constructor needs
`flight_intents` from a pool containing only `dss` fails with the
configuration error, independently of the constructor; with the dependency
available the constructor receives the resolved arguments. -/
theorem make_test_scenario_spec_witness :
    firstMissingParam ["self", "flight_intents"]
        ([("dss", 1)] : List (String × Nat)) = some "flight_intents"
    ∧ make_test_scenario "MyScenario" ["self", "flight_intents"]
        ([("dss", 1)] : List (String × Nat)) (fun _ => (0 : Nat))
      = Except.error (PyError.valueError
          (missingResourceMsg "MyScenario" "flight_intents"
            ([("dss", 1)] : List (String × Nat))))
    ∧ make_test_scenario "MyScenario" ["self", "flight_intents"]
        ([("dss", 1)] : List (String × Nat)) (fun _ => (0 : Nat))
      = make_test_scenario "MyScenario" ["self", "flight_intents"]
        ([("dss", 1)] : List (String × Nat)) (fun _ => (7 : Nat))
    ∧ firstMissingParam ["self", "flight_intents"]
        ([("flight_intents", 9)] : List (String × Nat)) = none
    ∧ make_test_scenario "MyScenario" ["self", "flight_intents"]
        ([("flight_intents", 9)] : List (String × Nat)) (fun args => args.length)
      = Except.ok 1 :=
  ⟨rfl,
    ((@make_test_scenario_spec Nat Nat).1 "MyScenario" ["self", "flight_intents"]
      [("dss", 1)] (fun _ => 0) (fun _ => 7) "flight_intents" rfl).1,
    ((@make_test_scenario_spec Nat Nat).1 "MyScenario" ["self", "flight_intents"]
      [("dss", 1)] (fun _ => 0) (fun _ => 7) "flight_intents" rfl).2,
    rfl,
    (@make_test_scenario_spec Nat Nat).2 "MyScenario" ["self", "flight_intents"]
      [("flight_intents", 9)] (fun args => args.length) rfl⟩

theorem addScenario_nodup (x : String) (l : List String) (h : l.Nodup) :
    (addScenario x l).Nodup := by
  unfold addScenario
  by_cases hx : x ∈ l
  · simpa [hx]
  · simp [hx, List.nodup_append, h]

theorem addScenarios_nodup (xs l : List String) (h : l.Nodup) :
    (addScenarios xs l).Nodup := by
  induction xs generalizing l with
  | nil => simpa [addScenarios]
  | cons x rest ih =>
    rw [addScenarios, List.foldl_cons]
    exact ih _ (addScenario_nodup _ _ h)

theorem classFold_nodup (cls : List PyClass) (l : List String)
    (h : l.Nodup) :
    (cls.foldl
      (fun acc c =>
        if c.isTestScenarioSubclass ∧ ¬ c.isBase then addScenario c.fullName acc
        else acc)
      l).Nodup := by
  induction cls generalizing l with
  | nil => simpa
  | cons c rest ih =>
    rw [List.foldl_cons]
    split
    · exact ih _ (addScenario_nodup _ _ h)
    · exact ih _ h

theorem moduleMembersLoop_nodup (subs : List PyModule)
    (scen checked : List String) (h : scen.Nodup) :
    (moduleMembersLoop subs scen checked).1.Nodup := by
  induction subs generalizing scen checked with
  | nil => simpa [moduleMembersLoop]
  | cons sub rest ih =>
    rw [moduleMembersLoop]
    split
    · exact ih _ _ (addScenarios_nodup _ _ h)
    · exact ih _ _ h

theorem find_test_scenarios_impl_nodup (m : PyModule)
    (checked : List String) : (find_test_scenarios_impl m checked).1.Nodup := by
  cases m with
  | mk nm subs cls =>
    rw [find_test_scenarios_impl]
    have h1 := moduleMembersLoop_nodup subs [] (addName nm checked) List.nodup_nil
    have h2 := classFold_nodup cls _ h1
    exact ((List.perm_insertionSort _ _).nodup_iff).mpr h2

theorem find_test_scenarios_impl_sorted (m : PyModule)
    (checked : List String) :
    List.Sorted (fun a b => a ≤ b) (find_test_scenarios_impl m checked).1 := by
  cases m with
  | mk nm subs cls =>
    rw [find_test_scenarios_impl]
    exact List.sorted_insertionSort _ _

/-- C9: scenario discovery is deterministic — on the same module graph it
returns the same sequence — and every result is deduplicated (no variant
appears twice, however many module paths reach it) and sorted by the
fully-qualified name of the variant. -/
theorem find_test_scenarios_deterministic (m m2 : PyModule) (h : m2 = m) :
    find_test_scenarios m2 = find_test_scenarios m
    ∧ List.Sorted (fun a b => a ≤ b) (find_test_scenarios m)
    ∧ (find_test_scenarios m).Nodup := by
  subst h
  exact ⟨rfl, find_test_scenarios_impl_sorted m2 [],
    find_test_scenarios_impl_nodup m2 []⟩

/-- A concrete namespace fixture: the scenarios root containing a
submodule that is reachable twice (listed as a member of itself as Python
packages routinely are via import cycles), each path exposing the same
scenario class. -/
def sampleScenariosModule : PyModule :=
  PyModule.mk "monitoring.uss_qualifier.scenarios"
    [PyModule.mk "monitoring.uss_qualifier.scenarios.astm"
      [PyModule.mk "monitoring.uss_qualifier.scenarios.astm" [] []]
      [{ fullName := "monitoring.uss_qualifier.scenarios.astm.utm.NominalPlanningPriority",
         isTestScenarioSubclass := true, isBase := false }],
     PyModule.mk "monitoring.uss_qualifier.scenarios.astm" [] []]
    [{ fullName := "monitoring.uss_qualifier.scenarios.TestScenario",
       isTestScenarioSubclass := true, isBase := true },
     { fullName := "monitoring.uss_qualifier.scenarios.aaa.AlphaScenario",
       isTestScenarioSubclass := true, isBase := false }]

/-- Witness for C9 at the concrete fixture. -/
theorem find_test_scenarios_deterministic_witness :
    find_test_scenarios sampleScenariosModule
      = find_test_scenarios sampleScenariosModule
    ∧ List.Sorted (fun a b => a ≤ b)
        (find_test_scenarios sampleScenariosModule)
    ∧ (find_test_scenarios sampleScenariosModule).Nodup :=
  find_test_scenarios_deterministic sampleScenariosModule
    sampleScenariosModule rfl

/-- A step report whose failed checks are all Low severity. -/
def stepAllLow (st : TestStepReport) : Bool :=
  st.failed_checks.all (fun fc => fc.severity == Severity.Low)

/-- Every failed check of the report (cases and cleanup) has severity
`Low`. -/
def allChecksLow (r : TestScenarioReport) : Bool :=
  (r.cases.all (fun c => c.steps.all stepAllLow))
    && (match r.cleanup with
        | none => true
        | some cl => stepAllLow cl)

/-- Some `FailedCheck` in some step of some case, or in the cleanup step,
has a severity other than `Low`. -/
def badCheckExists (r : TestScenarioReport) : Prop :=
  (∃ c ∈ r.cases, ∃ st ∈ c.steps, ∃ fc ∈ st.failed_checks,
    fc.severity ≠ Severity.Low)
  ∨ (∃ cl, r.cleanup = some cl ∧ ∃ fc ∈ cl.failed_checks,
      fc.severity ≠ Severity.Low)

theorem foldl_failed_checks (l : List FailedCheck) (b : Bool) :
    l.foldl (fun acc2 fc => if fc.severity ≠ Severity.Low then false else acc2) b
      = (b && l.all (fun fc => fc.severity == Severity.Low)) := by
  induction l generalizing b with
  | nil => simp
  | cons x xs ih =>
    rw [List.foldl_cons, List.all_cons, ih]
    by_cases hx : x.severity = Severity.Low
    · simp [hx]
    · simp [hx]

theorem foldl_steps (steps : List TestStepReport) (b : Bool) :
    steps.foldl
      (fun acc st => st.failed_checks.foldl
        (fun acc2 fc => if fc.severity ≠ Severity.Low then false else acc2) acc)
      b
      = (b && steps.all stepAllLow) := by
  induction steps generalizing b with
  | nil => simp
  | cons st rest ih =>
    rw [List.foldl_cons, List.all_cons, ih, foldl_failed_checks]
    simp [stepAllLow, Bool.and_assoc]

theorem foldl_cases (cs : List TestCaseReport) (b : Bool) :
    cs.foldl
      (fun acc c => c.steps.foldl
        (fun acc2 st => st.failed_checks.foldl
          (fun acc3 fc => if fc.severity ≠ Severity.Low then false else acc3)
          acc2)
        acc)
      b
      = (b && cs.all (fun c => c.steps.all stepAllLow)) := by
  induction cs generalizing b with
  | nil => simp
  | cons c rest ih =>
    rw [List.foldl_cons, List.all_cons, ih, foldl_steps]
    simp [Bool.and_assoc]

theorem computeSuccessful_eq (r : TestScenarioReport) :
    computeSuccessful r = (r.execution_error.isNone && allChecksLow r) := by
  cases hcl : r.cleanup with
  | none =>
    unfold computeSuccessful allChecksLow
    rw [hcl]
    show List.foldl
        (fun acc c => c.steps.foldl
          (fun acc2 st => st.failed_checks.foldl
            (fun acc3 fc => if fc.severity ≠ Severity.Low then false else acc3)
            acc2)
          acc)
        r.execution_error.isNone r.cases
      = (r.execution_error.isNone
          && ((r.cases.all fun c => c.steps.all stepAllLow) && true))
    rw [foldl_cases, Bool.and_true]
  | some cl =>
    unfold computeSuccessful allChecksLow
    rw [hcl]
    show List.foldl
        (fun acc2 fc => if fc.severity ≠ Severity.Low then false else acc2)
        (List.foldl
          (fun acc c => c.steps.foldl
            (fun acc2 st => st.failed_checks.foldl
              (fun acc3 fc => if fc.severity ≠ Severity.Low then false else acc3)
              acc2)
            acc)
          r.execution_error.isNone r.cases)
        cl.failed_checks
      = (r.execution_error.isNone
          && ((r.cases.all fun c => c.steps.all stepAllLow) && stepAllLow cl))
    rw [foldl_failed_checks, foldl_cases, Bool.and_assoc]
    rfl

theorem allChecksLow_eq_true_iff (r : TestScenarioReport) :
    allChecksLow r = true ↔ ¬ badCheckExists r := by
  unfold allChecksLow badCheckExists stepAllLow
  cases hcl : r.cleanup with
  | none =>
    simp [List.all_eq_true, not_or]
  | some cl =>
    simp [List.all_eq_true, not_or]

theorem bool_and_eq_false (a b : Bool) :
    (a && b) = false ↔ a = false ∨ b = false := by
  cases a <;> cases b <;> simp

theorem allChecksLow_eq_false_iff (r : TestScenarioReport) :
    allChecksLow r = false ↔ badCheckExists r := by
  constructor
  · intro h
    by_contra hbad
    rw [← allChecksLow_eq_true_iff] at hbad
    simp [h] at hbad
  · intro h
    cases hv : allChecksLow r with
    | false => rfl
    | true => exact absurd ((allChecksLow_eq_true_iff r).mp hv) (not_not.mpr h)

theorem record_execution_error_report (s : TestScenarioState)
    (e : ErrorReport) (now : Nat)
    (h : s._phase ≠ ScenarioPhase.Complete) :
    (record_execution_error s e now).1._scenario_report
      = some { (s._scenario_report.getD (freshScenarioReport s now)) with
                 execution_error := some e, successful := some false } := by
  unfold record_execution_error
  rw [if_neg h]
  cases hsr : s._scenario_report <;> simp [hsr, _make_scenario_report]

theorem get_report_pre_exec (s : TestScenarioState) (now : Nat)
    (h : s._phase ≠ ScenarioPhase.Complete) :
    ((get_report_pre s now).2.execution_error).isSome := by
  unfold get_report_pre
  cases hsr : s._scenario_report with
  | none =>
    simp [hsr, _make_scenario_report, freshScenarioReport, expectPhase, h,
      record_execution_error]
  | some r =>
    cases hex : r.execution_error with
    | some e => simp [hsr, hex]
    | none =>
      simp [hsr, hex, expectPhase, h, record_execution_error,
        _make_scenario_report]

/-- C6: `get_report` is total (callable in every phase); the returned
returned `successful` flag is always set, it is `false` exactly when an
execution error is present or some failed check anywhere (cases or
cleanup) has severity other than Low; and when the phase is not yet
`Complete` an execution error is recorded first. -/
theorem get_report_spec (s : TestScenarioState) (now : Nat) :
    ((get_report s now).2.successful = some false
      ↔ (((get_report s now).2.execution_error).isSome
          ∨ badCheckExists (get_report s now).2))
    ∧ ((get_report s now).2.successful).isSome
    ∧ (s._phase ≠ ScenarioPhase.Complete →
        ((get_report s now).2.execution_error).isSome) := by
  have hsnd : (get_report s now).2
      = { (get_report_pre s now).2 with
            successful := some (computeSuccessful (get_report_pre s now).2) } :=
    rfl
  refine ⟨?_, ?_, ?_⟩
  · rw [hsnd]
    set r2 := (get_report_pre s now).2 with hr2
    have hexe : ({ r2 with
        successful := some (computeSuccessful r2) } : TestScenarioReport).execution_error
        = r2.execution_error := rfl
    have hsucc : ({ r2 with
        successful := some (computeSuccessful r2) } : TestScenarioReport).successful
        = some (computeSuccessful r2) := rfl
    have hbad : badCheckExists
        { r2 with successful := some (computeSuccessful r2) }
        ↔ badCheckExists r2 := Iff.rfl
    rw [hexe, hsucc, hbad, computeSuccessful_eq]
    constructor
    · intro hh
      rcases (bool_and_eq_false _ _).mp (Option.some.inj hh) with h3 | h3
      · left
        cases hre : r2.execution_error with
        | none => rw [hre] at h3; simp at h3
        | some e => simp [hre]
      · right
        exact (allChecksLow_eq_false_iff r2).mp h3
    · intro hh
      have h2 : (r2.execution_error.isNone && allChecksLow r2) = false := by
        rcases hh with h3 | h3
        · have h4 : r2.execution_error.isNone = false := by
            cases hre : r2.execution_error with
            | none => rw [hre] at h3; simp at h3
            | some e => simp [hre]
          simp [h4]
        · simp [(allChecksLow_eq_false_iff r2).mpr h3]
      rw [h2]
  · rw [hsnd]
    rfl
  · intro h
    rw [hsnd]
    exact get_report_pre_exec s now h

/-- Witness for C6: on a fresh scenario (phase `NotStarted`), `get_report`
records an execution error. -/
theorem get_report_spec_witness :
    freshScenarioState._phase ≠ ScenarioPhase.Complete
    ∧ ((get_report freshScenarioState 5).2.execution_error).isSome :=
  ⟨by decide, (get_report_spec freshScenarioState 5).2.2 (by decide)⟩
